import Mathlib

set_option maxHeartbeats 1000000

namespace MCU

/-! Shallow embedding of the MCU-Backend serverless relay.

JS strings are modelled as lists of characters (`Str`), the Firebase
real-time store as a function from request identifiers to optional
records (`DbStore`), and the two outbound AI calls (Whisper
transcription, Gemini generation) as oracle parameters of type
`Except JsError Str` giving the outcome of the provider call.  Each
HTTP handler is a pure function from method, parsed input, oracles and
store to a response, an ordered trace of effects and the new store. -/

/-- JS strings modelled as lists of characters. -/
abbrev Str := List Char

/-- Convert a Lean string literal into the list-of-characters model. -/
def str (s : String) : Str := s.toList

/-- Character class of the identifier regex [a-zA-Z0-9_-] used by all three handlers. -/
def idChar (c : Char) : Bool := c.isAlpha || c.isDigit || c == '_' || c == '-'

/-- The whitespace class of JS regex \s and of String.prototype.trim. -/
def isJsWhitespace (c : Char) : Bool :=
  c == ' ' || c == '\t' || c == '\n' || c == '\r' || c == '\x0b' || c == '\x0c' ||
  c == '\u00A0' || c == '\u1680' ||
  (decide ('\u2000' ≤ c) && decide (c ≤ '\u200A')) ||
  c == '\u2028' || c == '\u2029' || c == '\u202F' || c == '\u205F' ||
  c == '\u3000' || c == '\uFEFF'

/-- JS String.prototype.trim: strip whitespace from both ends. -/
def jsTrim (s : Str) : Str :=
  ((s.dropWhile isJsWhitespace).reverse.dropWhile isJsWhitespace).reverse

/-- JS String.prototype.includes, via List.isPrefixOf at every suffix. -/
def includesSub : Str → Str → Bool
  | [], pat => pat.isEmpty
  | c :: rest, pat => List.isPrefixOf pat (c :: rest) || includesSub rest pat

/-- Character class of the base64 body regex [A-Za-z0-9+/]. -/
def base64Char (c : Char) : Bool := c.isAlpha || c.isDigit || c == '+' || c == '/'

/-- whisperService.validateAudioData base64 test: ^[A-Za-z0-9+/]*={0,2}$ . -/
def isBase64 (s : Str) : Bool :=
  let rest := s.dropWhile base64Char
  rest == [] || rest == ['='] || rest == ['=', '=']

/-! ### State store adapter (dbService.js) -/

namespace ResponseStatus

def PENDING : String := "pending"

def COMPLETED : String := "completed"

def ERROR : String := "error"

end ResponseStatus

/-- A record under /responses/{request_id}: text, status, timestamp, consumed. -/
structure DbRecord where
  text : Option Str
  status : String
  timestamp : Nat
  consumed : Bool
deriving DecidableEq

/-- The keyed store: one optional record per request identifier. -/
abbrev DbStore := Str → Option DbRecord

def emptyStore : DbStore := fun _ => none

/-- ref.set / ref.remove on responses/{requestId}. -/
def setRecord (store : DbStore) (requestId : Str) (r : Option DbRecord) : DbStore :=
  fun k => if k = requestId then r else store k

/-- dbService.savePendingResponse: unconditional set of a pending placeholder. -/
def savePendingResponse (store : DbStore) (requestId : Str) (now : Nat) : DbStore :=
  setRecord store requestId
    (some { text := none, status := ResponseStatus.PENDING, timestamp := now, consumed := false })

/-- dbService.saveResponse: unconditional set of the completed record. -/
def saveResponse (store : DbStore) (requestId : Str) (text : Str) (now : Nat) : DbStore :=
  setRecord store requestId
    (some { text := some text, status := ResponseStatus.COMPLETED, timestamp := now, consumed := false })

/-- dbService.saveErrorResponse: unconditional set of the error record. -/
def saveErrorResponse (store : DbStore) (requestId : Str) (errorMessage : Str) (now : Nat) : DbStore :=
  setRecord store requestId
    (some { text := some errorMessage, status := ResponseStatus.ERROR, timestamp := now, consumed := false })

/-- dbService.getResponse: read, absent vs present. -/
def getResponse (store : DbStore) (requestId : Str) : Option DbRecord := store requestId

/-- dbService.deleteResponse: remove if present, report whether a record existed. -/
def deleteResponse (store : DbStore) (requestId : Str) : Bool × DbStore :=
  match store requestId with
  | none => (false, store)
  | some _ => (true, setRecord store requestId none)

/-! ### Gemini generation adapter (geminiService.js) -/

/-- A JS Error as observed by the catch blocks: code and message. -/
structure JsError where
  code : Str
  message : Str
deriving DecidableEq

/-! geminiService cleanResponse, markdown-stripping phase, step by step in source order. -/

/-- .replace(/\*\*\/g, '') : remove "**" pairs left to right. -/
def removeBold : Str → Str
  | [] => []
  | [c] => [c]
  | c1 :: c2 :: rest =>
    if c1 == '*' && c2 == '*' then removeBold rest
    else c1 :: removeBold (c2 :: rest)

/-- .replace of every single star with the empty string. -/
def removeStars (s : Str) : Str := s.filter (fun c => !(c == '*'))

/-- .replace of every underscore with a space. -/
def replaceUnderscores (s : Str) : Str := s.map (fun c => if c == '_' then ' ' else c)

/-- Scanner for the header regex: a run of '#' and the whitespace following it are dropped;
the Bool flag records that we are inside the whitespace tail of a match. -/
def removeHeadersAux : Bool → Str → Str
  | _, [] => []
  | skipWs, c :: rest =>
    if c == '#' then removeHeadersAux true rest
    else if skipWs && isJsWhitespace c then removeHeadersAux true rest
    else c :: removeHeadersAux false rest

/-- .replace(/#{1,6}\s*\/g, '') . -/
def removeHeaders (s : Str) : Str := removeHeadersAux false s

/-- Attempt to match the markdown link regex right after an opening bracket:
a non-empty run without ']', then ']', then '(', a non-empty run without ')', then ')'.
Returns the label and the remainder after the match. -/
def parseLink (s : Str) : Option (Str × Str) :=
  let label := s.takeWhile (fun c => !(c == ']'))
  if label.isEmpty then none
  else
    match s.dropWhile (fun c => !(c == ']')) with
    | ']' :: '(' :: r2 =>
      let url := r2.takeWhile (fun c => !(c == ')'))
      if url.isEmpty then none
      else
        match r2.dropWhile (fun c => !(c == ')')) with
        | ')' :: rem => some (label, rem)
        | _ => none
    | _ => none

/-- Link-removal scanner; the fuel argument (initially the string length) only
bounds the recursion and is never exhausted since every step consumes a character. -/
def removeLinksF : Nat → Str → Str
  | 0, s => s
  | _, [] => []
  | fuel + 1, c :: rest =>
    if c == '[' then
      match parseLink rest with
      | some (label, rem) => label ++ removeLinksF fuel rem
      | none => c :: removeLinksF fuel rest
    else c :: removeLinksF fuel rest

/-- .replace of markdown links [label](url) with the label. -/
def removeLinks (s : Str) : Str := removeLinksF s.length s

/-- Find the next closing triple backtick; returns the suffix after it. -/
def findFence : Str → Option Str
  | '`' :: '`' :: '`' :: rest => some rest
  | _ :: rest => findFence rest
  | [] => none

/-- Fence-removal scanner with a length fuel, as in removeLinksF. -/
def removeFencesF : Nat → Str → Str
  | 0, s => s
  | _, [] => []
  | fuel + 1, c :: rest =>
    if c == '`' then
      match rest with
      | '`' :: '`' :: r3 =>
        (match findFence r3 with
         | some rem => removeFencesF fuel rem
         | none => c :: removeFencesF fuel rest)
      | _ => c :: removeFencesF fuel rest
    else c :: removeFencesF fuel rest

/-- .replace of lazy triple-backtick code blocks with the empty string. -/
def removeFences (s : Str) : Str := removeFencesF s.length s

/-- Attempt to match inline code right after an opening backtick:
a non-empty run without '`', then '`'; returns the inner text and the remainder. -/
def parseInline (s : Str) : Option (Str × Str) :=
  let inner := s.takeWhile (fun c => !(c == '`'))
  if inner.isEmpty then none
  else
    match s.dropWhile (fun c => !(c == '`')) with
    | '`' :: rem => some (inner, rem)
    | _ => none

/-- Inline-code scanner with a length fuel. -/
def removeInlineCodeF : Nat → Str → Str
  | 0, s => s
  | _, [] => []
  | fuel + 1, c :: rest =>
    if c == '`' then
      match parseInline rest with
      | some (inner, rem) => inner ++ removeInlineCodeF fuel rem
      | none => c :: removeInlineCodeF fuel rest
    else c :: removeInlineCodeF fuel rest

/-- .replace of single-backtick inline code with its contents. -/
def removeInlineCode (s : Str) : Str := removeInlineCodeF s.length s

/-- The replacement for a maximal newline run under /\n{3,}/g → two newlines. -/
def nlRun (run : Nat) : Str := List.replicate (if 3 ≤ run then 2 else run) '\n'

/-- Scanner collapsing runs of three or more newlines to two. -/
def collapseNewlinesAux : Nat → Str → Str
  | run, [] => nlRun run
  | run, c :: rest =>
    if c == '\n' then collapseNewlinesAux (run + 1) rest
    else nlRun run ++ (c :: collapseNewlinesAux 0 rest)

/-- .replace(/\n{3,}/g, two newlines). -/
def collapseNewlines (s : Str) : Str := collapseNewlinesAux 0 s

/-- Scanner replacing each maximal whitespace run with one space; the flag
records whether the previous character belonged to a whitespace run. -/
def collapseWhitespaceAux : Bool → Str → Str
  | _, [] => []
  | prevWs, c :: rest =>
    if isJsWhitespace c then
      (if prevWs then collapseWhitespaceAux true rest
       else ' ' :: collapseWhitespaceAux true rest)
    else c :: collapseWhitespaceAux false rest

/-- .replace(/\s+/g, single space). -/
def collapseWhitespace (s : Str) : Str := collapseWhitespaceAux false s

/-- The whole markdown-stripping and whitespace-normalising chain of
cleanResponse, in source order, ending with .trim(). -/
def cleanPhase (text : Str) : Str :=
  jsTrim (collapseWhitespace (collapseNewlines (removeInlineCode (removeFences
    (removeLinks (removeHeaders (replaceUnderscores (removeStars (removeBold text)))))))))

/-- JS String.prototype.lastIndexOf for a single character: last index or -1. -/
def lastIndexOf : Str → Char → Int
  | [], _ => -1
  | c :: rest, target =>
    let r := lastIndexOf rest target
    if 0 ≤ r then r + 1 else if c == target then 0 else -1

def MAX_RESPONSE_LENGTH : Nat := 1000

def REQUEST_TIMEOUT_MS : Nat := 25000

/-- The truncation step of cleanResponse: hard cut to the maximum length, then
either cut after the last sentence mark when it lies past half the limit, or
append an ellipsis. -/
def truncateResponse (cleaned : Str) : Str :=
  if MAX_RESPONSE_LENGTH < cleaned.length then
    let cut := cleaned.take MAX_RESPONSE_LENGTH
    let lastPeriod := lastIndexOf cut '.'
    let lastQuestion := lastIndexOf cut '?'
    let lastExclaim := lastIndexOf cut '!'
    let lastSentenceEnd := max lastPeriod (max lastQuestion lastExclaim)
    -- source: lastSentenceEnd > MAX_RESPONSE_LENGTH * 0.5, i.e. > 500
    if (500 : Int) < lastSentenceEnd then cut.take (lastSentenceEnd + 1).toNat
    else cut ++ str "..."
  else cleaned

/-- geminiService cleanResponse: stripping phase followed by truncation. -/
def cleanResponse (text : Str) : Str := truncateResponse (cleanPhase text)

/-- The catch-block pattern matching of generateResponse on the error message. -/
def mapGeminiError (msg : Str) : Str :=
  if includesSub msg (str "timed out") then str "AI service is taking too long. Please try again."
  else if includesSub msg (str "SAFETY") then str "Request was blocked for safety reasons."
  else if includesSub msg (str "quota") || includesSub msg (str "429") then
    str "AI service rate limit reached. Please wait a moment."
  else str "AI processing failed: " ++ msg

/-- geminiService.generateResponse: input check outside the try block, then the
provider call (oracle), empty-response check, cleaning; provider or internal
errors are translated by the catch block. -/
def generateResponse (text : Str) (modelApi : Except JsError Str) : Except Str Str :=
  if (jsTrim text).isEmpty then Except.error (str "Invalid input: text is required")
  else
    match modelApi with
    | Except.error e => Except.error (mapGeminiError e.message)
    | Except.ok raw =>
      if (jsTrim raw).isEmpty then
        Except.error (mapGeminiError (str "Gemini returned empty response"))
      else Except.ok (cleanResponse raw)

/-! ### Whisper transcription adapter (whisperService.js) -/

def MAX_AUDIO_SIZE_BYTES : Nat := 200 * 1024

/-- The catch-block pattern matching of transcribeAudio. -/
def mapWhisperError (e : JsError) : Str :=
  if includesSub e.message (str "Invalid file format") then
    str "Invalid audio format. Please use WAV format."
  else if includesSub e.message (str "too short") then
    str "Audio too short. Please speak longer."
  else if e.code == str "ECONNRESET" || includesSub e.message (str "timeout") then
    str "Transcription service timed out. Please try again."
  else str "Transcription failed: " ++ e.message

/-- whisperService.transcribeAudio: the presence and size checks sit outside the
try block (not translated); the provider call (oracle) and the empty-text check
are translated by the catch block. -/
def transcribeAudio (audioBase64 : Str) (whisperApi : Except JsError Str) : Except Str Str :=
  if audioBase64.isEmpty then Except.error (str "Audio data is required")
  else if MAX_AUDIO_SIZE_BYTES < audioBase64.length then
    Except.error (str "Audio too large. Max size: 200KB")
  else
    match whisperApi with
    | Except.error e => Except.error (mapWhisperError e)
    | Except.ok t =>
      let text := jsTrim t
      if text.isEmpty then
        Except.error (mapWhisperError { code := [], message := str "No speech detected in audio" })
      else Except.ok text

/-- whisperService.validateAudioData result shape { valid, error? }. -/
structure VResult where
  valid : Bool
  error : Option Str
deriving DecidableEq

/-- whisperService.validateAudioData. -/
def validateAudioData (audioBase64 : Option Str) : VResult :=
  match audioBase64 with
  | none => { valid := false, error := some (str "Audio data is required") }
  | some a =>
    if a.isEmpty then { valid := false, error := some (str "Audio data is required") }
    else if MAX_AUDIO_SIZE_BYTES < a.length then
      { valid := false, error := some (str "Audio too large. Max 200KB allowed") }
    else if !(isBase64 a) then { valid := false, error := some (str "Invalid base64 encoding") }
    else { valid := true, error := none }

/-! ### HTTP layer -/

inductive Method where
  | GET | POST | PUT | DELETE | OPTIONS | PATCH | HEAD
deriving DecidableEq

/-- The JSON response shape shared by the endpoints; absent fields are none.
statusField is the JSON "status" string of the response endpoint. -/
structure ApiResponse where
  status : Nat
  success : Option Bool := none
  request_id : Option Str := none
  message : Option Str := none
  error : Option Str := none
  transcription : Option Str := none
  statusField : Option Str := none
  text : Option Str := none
  timestamp : Option Nat := none
deriving DecidableEq

/-- Observable effects of one handler invocation, in order. -/
inductive Event where
  | writePending (requestId : Str)
  | writeCompleted (requestId : Str) (text : Str)
  | writeError (requestId : Str) (message : Str)
  | callTranscribe
  | callGenerate
deriving DecidableEq

structure HandlerResult where
  resp : ApiResponse
  events : List Event
  store : DbStore

/-- POST /api/query request body; each field is absent or a string, and a
field is JS-truthy when present and non-empty. -/
structure QueryBody where
  request_id : Option Str
  text : Option Str
  audio : Option Str

inductive InputType where
  | text | audio
deriving DecidableEq

inductive Validation where
  | invalid (err : Str)
  | validInput (ty : InputType)
deriving DecidableEq

/-- The text-mode tail of query.js validateRequest. -/
def textBranch (b : QueryBody) : Validation :=
  match b.text with
  | none => Validation.invalid (str "Either text or audio is required")
  | some t =>
    if t.isEmpty then Validation.invalid (str "Either text or audio is required")
    else if (jsTrim t).isEmpty then Validation.invalid (str "text cannot be empty")
    else if 1000 < t.length then Validation.invalid (str "text must be 1000 characters or less")
    else Validation.validInput InputType.text

/-- query.js validateRequest. -/
def validateRequest (body : Option QueryBody) : Validation :=
  match body with
  | none => Validation.invalid (str "Request body is required")
  | some b =>
    match b.request_id with
    | none => Validation.invalid (str "request_id is required and must be a string")
    | some rid =>
      if rid.isEmpty then Validation.invalid (str "request_id is required and must be a string")
      else if !(rid.all idChar) then Validation.invalid (str "request_id contains invalid characters")
      else if 64 < rid.length then Validation.invalid (str "request_id must be 64 characters or less")
      else
        match b.audio with
        | some a =>
          if a.isEmpty then textBranch b
          else
            let av := validateAudioData (some a)
            if !av.valid then Validation.invalid (av.error.getD []) else Validation.validInput InputType.audio
        | none => textBranch b

/-- Steps 3 and 4 of the query handler: generateResponse, then the completed or
error write and the 200 response. -/
def geminiStep (requestId queryText : Str) (transcription : Option Str)
    (geminiApi : Except JsError Str) (store1 : DbStore) (evs : List Event) (t2 : Nat) :
    HandlerResult :=
  match generateResponse queryText geminiApi with
  | Except.ok answer =>
    { resp := { status := 200, success := some true, request_id := some requestId,
                message := some (str "Query processed successfully"),
                transcription :=
                  match transcription with
                  | some t => if t.isEmpty then none else some t
                  | none => none },
      events := evs ++ [Event.callGenerate, Event.writeCompleted requestId answer],
      store := saveResponse store1 requestId answer t2 }
  | Except.error e =>
    { resp := { status := 200, success := some true, request_id := some requestId,
                transcription := transcription,
                message := some (str "Query received but AI processing failed"),
                error := some e },
      events := evs ++ [Event.callGenerate, Event.writeError requestId e],
      store := saveErrorResponse store1 requestId e t2 }

/-- query.js default handler: CORS preflight, method gate, validation, pending
write, optional transcription, generation, terminal write.  t1 and t2 are the
wall-clock readings of the two Firebase writes. -/
def queryHandler (method : Method) (body : Option QueryBody)
    (whisperApi geminiApi : Except JsError Str)
    (store : DbStore) (t1 t2 : Nat) : HandlerResult :=
  if method = Method.OPTIONS then { resp := { status := 200 }, events := [], store := store }
  else if method ≠ Method.POST then
    { resp := { status := 405, success := some false,
                error := some (str "Method not allowed. Use POST.") },
      events := [], store := store }
  else
    match validateRequest body with
    | Validation.invalid err =>
      { resp := { status := 400, success := some false, error := some err },
        events := [], store := store }
    | Validation.validInput ty =>
      match body with
      | none =>
        -- unreachable: validateRequest none is always invalid
        { resp := { status := 500, success := some false, error := some (str "Internal server error") },
          events := [], store := store }
      | some b =>
        let requestId := b.request_id.getD []
        let store1 := savePendingResponse store requestId t1
        match ty with
        | InputType.audio =>
          (match transcribeAudio (b.audio.getD []) whisperApi with
           | Except.error e =>
             let msg := str "Transcription failed: " ++ e
             { resp := { status := 200, success := some false, request_id := some requestId,
                         message := some (str "Audio transcription failed"), error := some e },
               events := [Event.writePending requestId, Event.callTranscribe,
                          Event.writeError requestId msg],
               store := saveErrorResponse store1 requestId msg t2 }
           | Except.ok tr =>
             geminiStep requestId tr (some tr) geminiApi store1
               [Event.writePending requestId, Event.callTranscribe] t2)
        | InputType.text =>
          geminiStep requestId (b.text.getD []) none geminiApi store1
            [Event.writePending requestId] t2

/-! ### Binary audio endpoint (audio.js) -/

def MAX_AUDIO_SIZE : Nat := 2 * 1024 * 1024

/-- Standard base64 encoding of a byte buffer (Buffer.prototype.toString base64). -/
def b64Alphabet : Str := str "ABCDEFGHIJKLMNOPQRSTUVWXYZabcdefghijklmnopqrstuvwxyz0123456789+/"

def b64Char (n : Nat) : Char := b64Alphabet.getD n 'A'

def base64Encode : List Nat → Str
  | [] => []
  | [b1] => b64Char (b1 / 4) :: b64Char (b1 % 4 * 16) :: '=' :: '=' :: []
  | [b1, b2] => b64Char (b1 / 4) :: b64Char (b1 % 4 * 16 + b2 / 16) :: b64Char (b2 % 16 * 4) :: '=' :: []
  | b1 :: b2 :: b3 :: rest =>
    b64Char (b1 / 4) :: b64Char (b1 % 4 * 16 + b2 / 16) ::
    b64Char (b2 % 16 * 4 + b3 / 64) :: b64Char (b3 % 64) :: base64Encode rest

/-- audio.js default handler: raw body, identifier in the X-Request-ID header. -/
def audioHandler (method : Method) (xRequestId : Option Str) (audioBody : Option (List Nat))
    (whisperApi geminiApi : Except JsError Str)
    (store : DbStore) (t1 t2 : Nat) : HandlerResult :=
  if method = Method.OPTIONS then { resp := { status := 200 }, events := [], store := store }
  else if method ≠ Method.POST then
    { resp := { status := 405, success := some false, error := some (str "Use POST method") },
      events := [], store := store }
  else
    match xRequestId with
    | none =>
      { resp := { status := 400, success := some false,
                  error := some (str "Valid X-Request-ID header required") },
        events := [], store := store }
    | some requestId =>
      if requestId.isEmpty || !(requestId.all idChar) then
        { resp := { status := 400, success := some false,
                    error := some (str "Valid X-Request-ID header required") },
          events := [], store := store }
      else
        match audioBody with
        | none =>
          { resp := { status := 400, success := some false, error := some (str "Audio data required") },
            events := [], store := store }
        | some buf =>
          if buf.length = 0 then
            { resp := { status := 400, success := some false, error := some (str "Audio data required") },
              events := [], store := store }
          else if MAX_AUDIO_SIZE < buf.length then
            { resp := { status := 400, success := some false,
                        error := some (str "Audio too large (max 2MB)") },
              events := [], store := store }
          else
            let base64Audio := base64Encode buf
            let store1 := savePendingResponse store requestId t1
            match transcribeAudio base64Audio whisperApi with
            | Except.error _ =>
              { resp := { status := 200, success := some false, request_id := some requestId,
                          error := some (str "Transcription failed") },
                events := [Event.writePending requestId, Event.callTranscribe,
                           Event.writeError requestId (str "Transcription failed")],
                store := saveErrorResponse store1 requestId (str "Transcription failed") t2 }
            | Except.ok tr =>
              match generateResponse tr geminiApi with
              | Except.ok answer =>
                { resp := { status := 200, success := some true, request_id := some requestId,
                            message := some (str "Audio processed successfully") },
                  events := [Event.writePending requestId, Event.callTranscribe,
                             Event.callGenerate, Event.writeCompleted requestId answer],
                  store := saveResponse store1 requestId answer t2 }
              | Except.error _ =>
                { resp := { status := 200, success := some false, request_id := some requestId,
                            error := some (str "AI failed") },
                  events := [Event.writePending requestId, Event.callTranscribe,
                             Event.callGenerate, Event.writeError requestId (str "AI processing failed")],
                  store := saveErrorResponse store1 requestId (str "AI processing failed") t2 }

/-! ### Poll and delete endpoint (response.js) -/

/-- response.js validateRequestId on the query-string parameter; some err on failure. -/
def validateRequestIdQS (requestId : Option Str) : Option Str :=
  match requestId with
  | none => some (str "request_id query parameter is required")
  | some rid =>
    if rid.isEmpty then some (str "request_id query parameter is required")
    else if !(rid.all idChar) then some (str "request_id contains invalid characters")
    else if 64 < rid.length then some (str "request_id must be 64 characters or less")
    else none

/-- response.js handleGet: 404 absent, 202 pending, 200 error or completed. -/
def handleGet (store : DbStore) (requestId : Str) : ApiResponse :=
  match getResponse store requestId with
  | none =>
    { status := 404, success := some false, request_id := some requestId,
      statusField := some (str "not_found"),
      message := some (str "No response found for this request_id") }
  | some r =>
    if r.status = ResponseStatus.PENDING then
      { status := 202, success := some true, request_id := some requestId,
        statusField := some (str "pending"),
        message := some (str "Response is still being processed") }
    else if r.status = ResponseStatus.ERROR then
      { status := 200, success := some true, request_id := some requestId,
        statusField := some (str "error"), text := r.text,
        message := some (str "AI processing encountered an error") }
    else
      { status := 200, success := some true, request_id := some requestId,
        statusField := some (str "completed"), text := r.text, timestamp := some r.timestamp }

/-- response.js handleDelete: 200 if a record was removed, 404 otherwise. -/
def handleDelete (store : DbStore) (requestId : Str) : ApiResponse × DbStore :=
  match deleteResponse store requestId with
  | (false, s) =>
    ({ status := 404, success := some false, request_id := some requestId,
       message := some (str "No response found to delete") }, s)
  | (true, s) =>
    ({ status := 200, success := some true, request_id := some requestId,
       message := some (str "Response deleted successfully") }, s)

/-- response.js default handler. -/
def responseHandler (method : Method) (requestId : Option Str) (store : DbStore) :
    ApiResponse × DbStore :=
  if method = Method.OPTIONS then ({ status := 200 }, store)
  else if method ≠ Method.GET ∧ method ≠ Method.DELETE then
    ({ status := 405, success := some false,
       error := some (str "Method not allowed. Use GET or DELETE.") }, store)
  else
    match validateRequestIdQS requestId with
    | some err => ({ status := 400, success := some false, error := some err }, store)
    | none =>
      let rid := requestId.getD []
      if method = Method.GET then (handleGet store rid, store)
      else handleDelete store rid

/-! ### Health check endpoint (root index.js) -/

structure HealthResponse where
  status : Nat
  name : String
  version : String
  serviceStatus : String
deriving DecidableEq

/-- The root health-check handler: a static 200 payload for every request. -/
def healthHandler (method : Method) : HealthResponse :=
  { status := 200, name := "ESP32 Voice Assistant API", version := "1.0.0",
    serviceStatus := "running" }

/-! ### Claim-side vocabulary -/

/-- Sentence-terminating punctuation of the truncation step. -/
def isSentenceEnd (c : Char) : Bool := c == '.' || c == '?' || c == '!'

/-- The spec reading: position j of s carries a sentence-terminating mark. -/
def sentenceMark (s : Str) (j : Nat) : Prop :=
  ∃ c, s.get? j = some c ∧ isSentenceEnd c = true

/-- The accepted token grammar for request identifiers. -/
abbrev ridOkP (rid : Str) : Prop := rid ≠ [] ∧ rid.all idChar = true ∧ rid.length ≤ 64

/-- A query text the validator accepts: non-empty after trimming, at most 1000 chars. -/
abbrev textOkP (t : Str) : Prop := jsTrim t ≠ [] ∧ t.length ≤ 1000

/-- A JSON-mode audio payload the validator accepts. -/
abbrev audioOkP (a : Str) : Prop :=
  a ≠ [] ∧ a.length ≤ MAX_AUDIO_SIZE_BYTES ∧ isBase64 a = true

/-- Characters untouched by every phase of cleanResponse's stripping chain. -/
def plainChar (c : Char) : Bool :=
  !(c == '*') && !(c == '_') && !(c == '#') && !(c == '[') && !(c == '`') && !(isJsWhitespace c)

end MCU

namespace MCU

/-! ### Helper lemmas -/

theorem setRecord_self (store : DbStore) (requestId : Str) (r : Option DbRecord) :
    setRecord store requestId r requestId = r := by
  simp [setRecord]

theorem jsTrim_nil : jsTrim [] = [] := rfl

theorem validateRequest_text (rid t : Str) (hr : ridOkP rid) (ht : textOkP t) :
    validateRequest (some ⟨some rid, some t, none⟩) = Validation.validInput InputType.text := by
  obtain ⟨h1, h2, h3⟩ := hr
  obtain ⟨h4, h5⟩ := ht
  have hne : t ≠ [] := by
    intro h
    rw [h, jsTrim_nil] at h4
    exact h4 rfl
  simp [validateRequest, textBranch, List.isEmpty_eq_false.mpr h1, h2, Nat.not_lt.mpr h3,
    List.isEmpty_eq_false.mpr hne, List.isEmpty_eq_false.mpr h4, Nat.not_lt.mpr h5]

theorem validateRequest_audio (rid a : Str) (tOpt : Option Str) (hr : ridOkP rid)
    (ha : audioOkP a) :
    validateRequest (some ⟨some rid, tOpt, some a⟩) = Validation.validInput InputType.audio := by
  obtain ⟨h1, h2, h3⟩ := hr
  obtain ⟨h4, h5, h6⟩ := ha
  simp [validateRequest, validateAudioData, List.isEmpty_eq_false.mpr h1, h2, Nat.not_lt.mpr h3,
    List.isEmpty_eq_false.mpr h4, Nat.not_lt.mpr h5, h6]

theorem validateRequestIdQS_ok (rid : Str) (hr : ridOkP rid) :
    validateRequestIdQS (some rid) = none := by
  obtain ⟨h1, h2, h3⟩ := hr
  simp [validateRequestIdQS, List.isEmpty_eq_false.mpr h1, h2, Nat.not_lt.mpr h3]

/-! ### C8 -/

/-- C8 counterexample: the set-completed write changes the timestamp written at
creation time (pending written at time 0, completion at time 5 leaves timestamp 5). -/
theorem c8_counterexample :
    ((saveResponse (savePendingResponse emptyStore (str "r1") 0) (str "r1") (str "hi") 5)
        (str "r1")).map DbRecord.timestamp = some 5 ∧
    ((savePendingResponse emptyStore (str "r1") 0) (str "r1")).map DbRecord.timestamp = some 0 ∧
    (5 : Nat) ≠ 0 := by
  decide

/-- C8 (amended): every full write — create-pending, set-completed and set-error —
stores its own wall-clock reading in the timestamp field, overwriting any earlier value. -/
theorem c8_timestamp_overwritten_on_every_write (store : DbStore) (rid txt msg : Str) (now : Nat) :
    ((savePendingResponse store rid now) rid).map DbRecord.timestamp = some now ∧
    ((saveResponse store rid txt now) rid).map DbRecord.timestamp = some now ∧
    ((saveErrorResponse store rid msg now) rid).map DbRecord.timestamp = some now := by
  simp [savePendingResponse, saveResponse, saveErrorResponse, setRecord]

/-! ### C7 -/

/-- C7: for a valid identifier whose record exists, the first DELETE returns 200
with success true and removes the record; a second DELETE returns 404. -/
theorem c7_delete_then_delete_again (rid : Str) (store : DbStore) (r : DbRecord)
    (hr : ridOkP rid) (h : store rid = some r) :
    (responseHandler Method.DELETE (some rid) store).1.status = 200 ∧
    (responseHandler Method.DELETE (some rid) store).1.success = some true ∧
    (responseHandler Method.DELETE (some rid) store).2 rid = none ∧
    (responseHandler Method.DELETE (some rid)
        (responseHandler Method.DELETE (some rid) store).2).1.status = 404 ∧
    (responseHandler Method.DELETE (some rid)
        (responseHandler Method.DELETE (some rid) store).2).1.success = some false := by
  have hv := validateRequestIdQS_ok rid hr
  simp [responseHandler, hv, handleDelete, deleteResponse, h, setRecord_self]

/-- C7 witness at a concrete store holding one record. -/
theorem c7_witness :
    ridOkP (str "r1") ∧
    (responseHandler Method.DELETE (some (str "r1"))
        (setRecord emptyStore (str "r1")
          (some { text := some (str "hi"), status := ResponseStatus.COMPLETED,
                  timestamp := 3, consumed := false }))).1.status = 200 := by
  refine ⟨by decide, ?_⟩
  exact (c7_delete_then_delete_again (str "r1") _
    { text := some (str "hi"), status := ResponseStatus.COMPLETED, timestamp := 3, consumed := false }
    (by decide) (by decide)).1

end MCU

namespace MCU

/-! ### C6 -/

/-- C6: for every valid identifier, GET returns 404 when no record exists, 202 when
pending, 200 for error (surfacing the stored error text) and for completed
(surfacing the stored answer text and timestamp); DELETE returns 200 when a record
existed and 404 when none did. -/
theorem c6_poll_and_delete_contract (rid : Str) (store : DbStore) (hr : ridOkP rid) :
    (getResponse store rid = none →
      (responseHandler Method.GET (some rid) store).1.status = 404) ∧
    (∀ r, getResponse store rid = some r → r.status = ResponseStatus.PENDING →
      (responseHandler Method.GET (some rid) store).1.status = 202) ∧
    (∀ r, getResponse store rid = some r → r.status = ResponseStatus.ERROR →
      (responseHandler Method.GET (some rid) store).1.status = 200 ∧
      (responseHandler Method.GET (some rid) store).1.text = r.text ∧
      (responseHandler Method.GET (some rid) store).1.statusField = some (str "error")) ∧
    (∀ r, getResponse store rid = some r → r.status = ResponseStatus.COMPLETED →
      (responseHandler Method.GET (some rid) store).1.status = 200 ∧
      (responseHandler Method.GET (some rid) store).1.text = r.text ∧
      (responseHandler Method.GET (some rid) store).1.timestamp = some r.timestamp ∧
      (responseHandler Method.GET (some rid) store).1.statusField = some (str "completed")) ∧
    (∀ r, store rid = some r →
      (responseHandler Method.DELETE (some rid) store).1.status = 200) ∧
    (store rid = none →
      (responseHandler Method.DELETE (some rid) store).1.status = 404) := by
  have hv := validateRequestIdQS_ok rid hr
  refine ⟨?_, ?_, ?_, ?_, ?_, ?_⟩
  · intro h
    simp [responseHandler, hv, handleGet, h]
  · intro r h hs
    simp [responseHandler, hv, handleGet, h, hs]
  · intro r h hs
    have hne : ResponseStatus.ERROR ≠ ResponseStatus.PENDING := by decide
    simp [responseHandler, hv, handleGet, h, hs, hne]
  · intro r h hs
    have hne1 : ResponseStatus.COMPLETED ≠ ResponseStatus.PENDING := by decide
    have hne2 : ResponseStatus.COMPLETED ≠ ResponseStatus.ERROR := by decide
    simp [responseHandler, hv, handleGet, h, hs, hne1, hne2]
  · intro r h
    simp [responseHandler, hv, handleDelete, deleteResponse, h]
  · intro h
    simp [responseHandler, hv, handleDelete, deleteResponse, h]

/-- C6 witness at concrete stores for the absent, pending, error, completed and
delete cases. -/
theorem c6_witness :
    ridOkP (str "r1") ∧
    (responseHandler Method.GET (some (str "r1")) emptyStore).1.status = 404 ∧
    (responseHandler Method.GET (some (str "r1"))
      (setRecord emptyStore (str "r1")
        (some { text := none, status := ResponseStatus.PENDING, timestamp := 1,
                consumed := false }))).1.status = 202 ∧
    (responseHandler Method.GET (some (str "r1"))
      (setRecord emptyStore (str "r1")
        (some { text := some (str "oops"), status := ResponseStatus.ERROR, timestamp := 1,
                consumed := false }))).1.status = 200 ∧
    (responseHandler Method.GET (some (str "r1"))
      (setRecord emptyStore (str "r1")
        (some { text := some (str "ans"), status := ResponseStatus.COMPLETED, timestamp := 2,
                consumed := false }))).1.timestamp = some 2 ∧
    (responseHandler Method.DELETE (some (str "r1")) emptyStore).1.status = 404 := by
  have hr : ridOkP (str "r1") := by decide
  refine ⟨hr, ?_, ?_, ?_, ?_, ?_⟩
  · exact (c6_poll_and_delete_contract (str "r1") emptyStore hr).1 rfl
  · exact (c6_poll_and_delete_contract (str "r1") _ hr).2.1
      { text := none, status := ResponseStatus.PENDING, timestamp := 1, consumed := false }
      (by decide) rfl
  · exact ((c6_poll_and_delete_contract (str "r1") _ hr).2.2.1
      { text := some (str "oops"), status := ResponseStatus.ERROR, timestamp := 1, consumed := false }
      (by decide) rfl).1
  · exact ((c6_poll_and_delete_contract (str "r1") _ hr).2.2.2.1
      { text := some (str "ans"), status := ResponseStatus.COMPLETED, timestamp := 2, consumed := false }
      (by decide) rfl).2.2.1
  · exact (c6_poll_and_delete_contract (str "r1") emptyStore hr).2.2.2.2.2 rfl

/-! ### C5 -/

/-- C5: a POST body whose request_id contains a character outside [A-Za-z0-9_-] is
rejected with 400 and success false, with no store write, no transcription call and
no generation call. -/
theorem c5_invalid_id_rejected_before_any_effect (b : QueryBody) (rid : Str)
    (wa ga : Except JsError Str) (store : DbStore) (t1 t2 : Nat)
    (hid : b.request_id = some rid) (hbad : ∃ c ∈ rid, idChar c = false) :
    (queryHandler Method.POST (some b) wa ga store t1 t2).resp.status = 400 ∧
    (queryHandler Method.POST (some b) wa ga store t1 t2).resp.success = some false ∧
    (queryHandler Method.POST (some b) wa ga store t1 t2).events = [] ∧
    (queryHandler Method.POST (some b) wa ga store t1 t2).store = store := by
  obtain ⟨c, hc, hcbad⟩ := hbad
  have hne : rid ≠ [] := by
    intro h
    rw [h] at hc
    exact (List.not_mem_nil c) hc
  have hall : rid.all idChar = false := by
    by_contra h
    have := List.all_eq_true.mp (eq_true_of_ne_false h) c hc
    rw [hcbad] at this
    exact Bool.false_ne_true this
  have hv : validateRequest (some b) = Validation.invalid (str "request_id contains invalid characters") := by
    obtain ⟨orid, otext, oaudio⟩ := b
    simp only [QueryBody.request_id] at hid
    subst hid
    simp [validateRequest, List.isEmpty_eq_false.mpr hne, hall]
  simp [queryHandler, hv]

/-- C5 witness at request_id "../etc". -/
theorem c5_witness :
    (∃ c ∈ str "../etc", idChar c = false) ∧
    (queryHandler Method.POST (some ⟨some (str "../etc"), some (str "hi"), none⟩)
        (Except.ok []) (Except.ok []) emptyStore 0 0).resp.status = 400 ∧
    (queryHandler Method.POST (some ⟨some (str "../etc"), some (str "hi"), none⟩)
        (Except.ok []) (Except.ok []) emptyStore 0 0).events = [] := by
  have hbad : ∃ c ∈ str "../etc", idChar c = false := by decide
  refine ⟨hbad, ?_, ?_⟩
  · exact (c5_invalid_id_rejected_before_any_effect _ _ _ _ _ 0 0 rfl hbad).1
  · exact (c5_invalid_id_rejected_before_any_effect _ _ _ _ _ 0 0 rfl hbad).2.2.1

/-! ### C9 -/

/-- C9 counterexample: the health-check endpoint answers 200, not 405, to a POST
request, although its only documented method is GET. -/
theorem c9_counterexample :
    (healthHandler Method.POST).status = 200 ∧ (healthHandler Method.POST).status ≠ 405 := by
  constructor
  · rfl
  · intro h
    simp [healthHandler] at h

/-- C9 (amended): the submit-query, binary-audio and poll-or-delete endpoints
answer 405 to every method they do not allow (OPTIONS excepted), while the
health-check endpoint answers 200 to every method. -/
theorem c9_method_gate :
    (∀ m body wa ga store t1 t2, m ≠ Method.POST → m ≠ Method.OPTIONS →
      (queryHandler m body wa ga store t1 t2).resp.status = 405) ∧
    (∀ m rid buf wa ga store t1 t2, m ≠ Method.POST → m ≠ Method.OPTIONS →
      (audioHandler m rid buf wa ga store t1 t2).resp.status = 405) ∧
    (∀ m rid store, m ≠ Method.GET → m ≠ Method.DELETE → m ≠ Method.OPTIONS →
      (responseHandler m rid store).1.status = 405) ∧
    (∀ m, (healthHandler m).status = 200) := by
  refine ⟨?_, ?_, ?_, ?_⟩
  · intro m body wa ga store t1 t2 h1 h2
    simp [queryHandler, h1, h2]
  · intro m rid buf wa ga store t1 t2 h1 h2
    simp [audioHandler, h1, h2]
  · intro m rid store h1 h2 h3
    simp [responseHandler, h1, h2, h3]
  · intro m
    rfl

/-- C9 witness: a PUT request against each of the three main endpoints, and a POST
against the health check. -/
theorem c9_witness :
    Method.PUT ≠ Method.POST ∧ Method.PUT ≠ Method.OPTIONS ∧
    (queryHandler Method.PUT none (Except.ok []) (Except.ok []) emptyStore 0 0).resp.status = 405 ∧
    (audioHandler Method.PUT none none (Except.ok []) (Except.ok []) emptyStore 0 0).resp.status = 405 ∧
    (responseHandler Method.PUT none emptyStore).1.status = 405 ∧
    (healthHandler Method.POST).status = 200 := by
  refine ⟨by decide, by decide, ?_, ?_, ?_, ?_⟩
  · exact c9_method_gate.1 Method.PUT none _ _ _ 0 0 (by decide) (by decide)
  · exact c9_method_gate.2.1 Method.PUT none none _ _ _ 0 0 (by decide) (by decide)
  · exact c9_method_gate.2.2.1 Method.PUT none emptyStore (by decide) (by decide) (by decide)
  · exact c9_method_gate.2.2.2 Method.POST

end MCU

namespace MCU

/-! ### Path lemmas for the submit handlers -/

theorem queryHandler_text_run (rid t : Str) (wa ga : Except JsError Str) (store : DbStore)
    (t1 t2 : Nat) (hr : ridOkP rid) (ht : textOkP t) :
    queryHandler Method.POST (some ⟨some rid, some t, none⟩) wa ga store t1 t2 =
      geminiStep rid t none ga (savePendingResponse store rid t1) [Event.writePending rid] t2 := by
  have hv := validateRequest_text rid t hr ht
  simp [queryHandler, hv]

theorem queryHandler_audio_err (rid a : Str) (tOpt : Option Str) (wa ga : Except JsError Str)
    (store : DbStore) (t1 t2 : Nat) (e : Str) (hr : ridOkP rid) (ha : audioOkP a)
    (htr : transcribeAudio a wa = Except.error e) :
    queryHandler Method.POST (some ⟨some rid, tOpt, some a⟩) wa ga store t1 t2 =
      { resp := { status := 200, success := some false, request_id := some rid,
                  message := some (str "Audio transcription failed"), error := some e },
        events := [Event.writePending rid, Event.callTranscribe,
                   Event.writeError rid (str "Transcription failed: " ++ e)],
        store := saveErrorResponse (savePendingResponse store rid t1) rid
                   (str "Transcription failed: " ++ e) t2 } := by
  have hv := validateRequest_audio rid a tOpt hr ha
  simp [queryHandler, hv, htr]

theorem queryHandler_audio_ok (rid a : Str) (tOpt : Option Str) (wa ga : Except JsError Str)
    (store : DbStore) (t1 t2 : Nat) (tr : Str) (hr : ridOkP rid) (ha : audioOkP a)
    (htr : transcribeAudio a wa = Except.ok tr) :
    queryHandler Method.POST (some ⟨some rid, tOpt, some a⟩) wa ga store t1 t2 =
      geminiStep rid tr (some tr) ga (savePendingResponse store rid t1)
        [Event.writePending rid, Event.callTranscribe] t2 := by
  have hv := validateRequest_audio rid a tOpt hr ha
  simp [queryHandler, hv, htr]

theorem audioHandler_transcribe_err (rid : Str) (buf : List Nat) (wa ga : Except JsError Str)
    (store : DbStore) (t1 t2 : Nat) (e : Str)
    (h1 : rid ≠ []) (h2 : rid.all idChar = true)
    (h3 : buf ≠ []) (h4 : buf.length ≤ MAX_AUDIO_SIZE)
    (htr : transcribeAudio (base64Encode buf) wa = Except.error e) :
    audioHandler Method.POST (some rid) (some buf) wa ga store t1 t2 =
      { resp := { status := 200, success := some false, request_id := some rid,
                  error := some (str "Transcription failed") },
        events := [Event.writePending rid, Event.callTranscribe,
                   Event.writeError rid (str "Transcription failed")],
        store := saveErrorResponse (savePendingResponse store rid t1) rid
                   (str "Transcription failed") t2 } := by
  simp [audioHandler, List.isEmpty_eq_false.mpr h1, h2, h3, Nat.not_lt.mpr h4, htr]

theorem audioHandler_gemini_err (rid : Str) (buf : List Nat) (wa ga : Except JsError Str)
    (store : DbStore) (t1 t2 : Nat) (tr e : Str)
    (h1 : rid ≠ []) (h2 : rid.all idChar = true)
    (h3 : buf ≠ []) (h4 : buf.length ≤ MAX_AUDIO_SIZE)
    (htr : transcribeAudio (base64Encode buf) wa = Except.ok tr)
    (hg : generateResponse tr ga = Except.error e) :
    audioHandler Method.POST (some rid) (some buf) wa ga store t1 t2 =
      { resp := { status := 200, success := some false, request_id := some rid,
                  error := some (str "AI failed") },
        events := [Event.writePending rid, Event.callTranscribe, Event.callGenerate,
                   Event.writeError rid (str "AI processing failed")],
        store := saveErrorResponse (savePendingResponse store rid t1) rid
                   (str "AI processing failed") t2 } := by
  simp [audioHandler, List.isEmpty_eq_false.mpr h1, h2, h3, Nat.not_lt.mpr h4, htr, hg]

end MCU

namespace MCU

/-! ### C1 -/

/-- C1 counterexample: the empty text has at most 1000 characters and "abc" matches
the token grammar, yet the submit-query handler answers 400 and performs no write
at all, so no absent→pending transition happens. -/
theorem c1_counterexample :
    ridOkP (str "abc") ∧ (List.length ([] : Str) ≤ 1000) ∧
    (queryHandler Method.POST (some ⟨some (str "abc"), some [], none⟩)
        (Except.ok (str "t")) (Except.ok (str "g")) emptyStore 0 1).events = [] ∧
    (queryHandler Method.POST (some ⟨some (str "abc"), some [], none⟩)
        (Except.ok (str "t")) (Except.ok (str "g")) emptyStore 0 1).resp.status = 400 := by
  decide

/-- C1 (amended): for every request body with no audio payload, a request_id
matching the token grammar and a text that is non-empty after trimming and at most
1000 characters long, the submit-query handler writes the record exactly once as
pending before the generation call and exactly once more afterwards — completed if
generation succeeds, error if it fails — and performs no other write. -/
theorem c1_single_transition_text_mode (rid t : Str) (wa ga : Except JsError Str)
    (store : DbStore) (t1 t2 : Nat) (hr : ridOkP rid) (ht : textOkP t) :
    (∀ ans, generateResponse t ga = Except.ok ans →
      (queryHandler Method.POST (some ⟨some rid, some t, none⟩) wa ga store t1 t2).events =
        [Event.writePending rid, Event.callGenerate, Event.writeCompleted rid ans] ∧
      ((queryHandler Method.POST (some ⟨some rid, some t, none⟩) wa ga store t1 t2).store
          rid).map DbRecord.status = some ResponseStatus.COMPLETED) ∧
    (∀ e, generateResponse t ga = Except.error e →
      (queryHandler Method.POST (some ⟨some rid, some t, none⟩) wa ga store t1 t2).events =
        [Event.writePending rid, Event.callGenerate, Event.writeError rid e] ∧
      ((queryHandler Method.POST (some ⟨some rid, some t, none⟩) wa ga store t1 t2).store
          rid).map DbRecord.status = some ResponseStatus.ERROR) := by
  rw [queryHandler_text_run rid t wa ga store t1 t2 hr ht]
  constructor
  · intro ans h
    simp [geminiStep, h, saveResponse, setRecord]
  · intro e h
    simp [geminiStep, h, saveErrorResponse, setRecord]

/-- C1 witness: a concrete valid body whose generation call fails. -/
theorem c1_witness :
    ridOkP (str "abc") ∧ textOkP (str "hi") ∧
    generateResponse (str "hi") (Except.error ⟨[], str "boom"⟩) =
      Except.error (str "AI processing failed: boom") ∧
    (queryHandler Method.POST (some ⟨some (str "abc"), some (str "hi"), none⟩)
        (Except.ok (str "t")) (Except.error ⟨[], str "boom"⟩) emptyStore 0 1).events =
      [Event.writePending (str "abc"), Event.callGenerate,
       Event.writeError (str "abc") (str "AI processing failed: boom")] := by
  refine ⟨by decide, by decide, rfl, ?_⟩
  exact ((c1_single_transition_text_mode (str "abc") (str "hi") (Except.ok (str "t"))
    (Except.error ⟨[], str "boom"⟩) emptyStore 0 1 (by decide) (by decide)).2
    (str "AI processing failed: boom") rfl).1

/-! ### C4 -/

/-- C4: whenever a downstream AI step fails after the pending record was written —
generation in text mode, transcription or generation in audio mode, on either
submit endpoint — the handler persists the error as the record's terminal error
state and answers HTTP 200, not an HTTP error status. -/
theorem c4_downstream_failure_is_200_plus_error_record :
    (∀ rid t wa ga store t1 t2 e, ridOkP rid → textOkP t →
      generateResponse t ga = Except.error e →
      (queryHandler Method.POST (some ⟨some rid, some t, none⟩) wa ga store t1 t2).resp.status = 200 ∧
      ((queryHandler Method.POST (some ⟨some rid, some t, none⟩) wa ga store t1 t2).store
          rid).map DbRecord.status = some ResponseStatus.ERROR) ∧
    (∀ rid a wa ga store t1 t2 e, ridOkP rid → audioOkP a →
      transcribeAudio a wa = Except.error e →
      (queryHandler Method.POST (some ⟨some rid, none, some a⟩) wa ga store t1 t2).resp.status = 200 ∧
      ((queryHandler Method.POST (some ⟨some rid, none, some a⟩) wa ga store t1 t2).store
          rid).map DbRecord.status = some ResponseStatus.ERROR) ∧
    (∀ rid a wa ga store t1 t2 tr e, ridOkP rid → audioOkP a →
      transcribeAudio a wa = Except.ok tr → generateResponse tr ga = Except.error e →
      (queryHandler Method.POST (some ⟨some rid, none, some a⟩) wa ga store t1 t2).resp.status = 200 ∧
      ((queryHandler Method.POST (some ⟨some rid, none, some a⟩) wa ga store t1 t2).store
          rid).map DbRecord.status = some ResponseStatus.ERROR) ∧
    (∀ rid buf wa ga store t1 t2 e, rid ≠ [] → rid.all idChar = true →
      buf ≠ [] → List.length buf ≤ MAX_AUDIO_SIZE →
      transcribeAudio (base64Encode buf) wa = Except.error e →
      (audioHandler Method.POST (some rid) (some buf) wa ga store t1 t2).resp.status = 200 ∧
      ((audioHandler Method.POST (some rid) (some buf) wa ga store t1 t2).store
          rid).map DbRecord.status = some ResponseStatus.ERROR) ∧
    (∀ rid buf wa ga store t1 t2 tr e, rid ≠ [] → rid.all idChar = true →
      buf ≠ [] → List.length buf ≤ MAX_AUDIO_SIZE →
      transcribeAudio (base64Encode buf) wa = Except.ok tr →
      generateResponse tr ga = Except.error e →
      (audioHandler Method.POST (some rid) (some buf) wa ga store t1 t2).resp.status = 200 ∧
      ((audioHandler Method.POST (some rid) (some buf) wa ga store t1 t2).store
          rid).map DbRecord.status = some ResponseStatus.ERROR) := by
  refine ⟨?_, ?_, ?_, ?_, ?_⟩
  · intro rid t wa ga store t1 t2 e hr ht hg
    rw [queryHandler_text_run rid t wa ga store t1 t2 hr ht]
    simp [geminiStep, hg, saveErrorResponse, setRecord]
  · intro rid a wa ga store t1 t2 e hr ha htr
    rw [queryHandler_audio_err rid a none wa ga store t1 t2 e hr ha htr]
    simp [saveErrorResponse, setRecord]
  · intro rid a wa ga store t1 t2 tr e hr ha htr hg
    rw [queryHandler_audio_ok rid a none wa ga store t1 t2 tr hr ha htr]
    simp [geminiStep, hg, saveErrorResponse, setRecord]
  · intro rid buf wa ga store t1 t2 e h1 h2 h3 h4 htr
    rw [audioHandler_transcribe_err rid buf wa ga store t1 t2 e h1 h2 h3 h4 htr]
    simp [saveErrorResponse, setRecord]
  · intro rid buf wa ga store t1 t2 tr e h1 h2 h3 h4 htr hg
    rw [audioHandler_gemini_err rid buf wa ga store t1 t2 tr e h1 h2 h3 h4 htr hg]
    simp [saveErrorResponse, setRecord]

/-- C4 witness: concrete failing runs for all five downstream-failure scenarios. -/
theorem c4_witness :
    (queryHandler Method.POST (some ⟨some (str "abc"), some (str "hi"), none⟩)
        (Except.ok (str "t")) (Except.error ⟨[], str "boom"⟩) emptyStore 0 1).resp.status = 200 ∧
    (queryHandler Method.POST (some ⟨some (str "abc"), none, some (str "QQ==")⟩)
        (Except.error ⟨[], str "boom"⟩) (Except.ok (str "g")) emptyStore 0 1).resp.status = 200 ∧
    (queryHandler Method.POST (some ⟨some (str "abc"), none, some (str "QQ==")⟩)
        (Except.ok (str "hello")) (Except.error ⟨[], str "boom"⟩) emptyStore 0 1).resp.status = 200 ∧
    (audioHandler Method.POST (some (str "abc")) (some [1, 2, 3])
        (Except.error ⟨[], str "boom"⟩) (Except.ok (str "g")) emptyStore 0 1).resp.status = 200 ∧
    (audioHandler Method.POST (some (str "abc")) (some [1, 2, 3])
        (Except.ok (str "hello")) (Except.error ⟨[], str "boom"⟩) emptyStore 0 1).resp.status = 200 := by
  refine ⟨?_, ?_, ?_, ?_, ?_⟩
  · exact (c4_downstream_failure_is_200_plus_error_record.1 (str "abc") (str "hi")
      (Except.ok (str "t")) (Except.error ⟨[], str "boom"⟩) emptyStore 0 1
      (str "AI processing failed: boom") (by decide) (by decide) rfl).1
  · exact (c4_downstream_failure_is_200_plus_error_record.2.1 (str "abc") (str "QQ==")
      (Except.error ⟨[], str "boom"⟩) (Except.ok (str "g")) emptyStore 0 1
      (str "Transcription failed: boom") (by decide) (by decide) rfl).1
  · exact (c4_downstream_failure_is_200_plus_error_record.2.2.1 (str "abc") (str "QQ==")
      (Except.ok (str "hello")) (Except.error ⟨[], str "boom"⟩) emptyStore 0 1
      (str "hello") (str "AI processing failed: boom")
      (by decide) (by decide) rfl rfl).1
  · exact (c4_downstream_failure_is_200_plus_error_record.2.2.2.1 (str "abc") [1, 2, 3]
      (Except.error ⟨[], str "boom"⟩) (Except.ok (str "g")) emptyStore 0 1
      (str "Transcription failed: boom") (by decide) (by decide) (by decide) (by decide)
      rfl).1
  · exact (c4_downstream_failure_is_200_plus_error_record.2.2.2.2 (str "abc") [1, 2, 3]
      (Except.ok (str "hello")) (Except.error ⟨[], str "boom"⟩) emptyStore 0 1
      (str "hello") (str "AI processing failed: boom")
      (by decide) (by decide) (by decide) (by decide) rfl rfl).1

/-! ### C10 -/

/-- C10: on the submit-query endpoint the two downstream failure kinds carry
different success flags in the 200 body: transcription failure answers success
false with message "Audio transcription failed", generation failure answers success
true with message "Query received but AI processing failed"; both persist an error
record. -/
theorem c10_success_flag_differs_by_failure_kind :
    (∀ rid a wa ga store t1 t2 e, ridOkP rid → audioOkP a →
      transcribeAudio a wa = Except.error e →
      (queryHandler Method.POST (some ⟨some rid, none, some a⟩) wa ga store t1 t2).resp.success =
        some false ∧
      (queryHandler Method.POST (some ⟨some rid, none, some a⟩) wa ga store t1 t2).resp.message =
        some (str "Audio transcription failed") ∧
      ((queryHandler Method.POST (some ⟨some rid, none, some a⟩) wa ga store t1 t2).store
          rid).map DbRecord.status = some ResponseStatus.ERROR) ∧
    (∀ rid t wa ga store t1 t2 e, ridOkP rid → textOkP t →
      generateResponse t ga = Except.error e →
      (queryHandler Method.POST (some ⟨some rid, some t, none⟩) wa ga store t1 t2).resp.success =
        some true ∧
      (queryHandler Method.POST (some ⟨some rid, some t, none⟩) wa ga store t1 t2).resp.message =
        some (str "Query received but AI processing failed") ∧
      ((queryHandler Method.POST (some ⟨some rid, some t, none⟩) wa ga store t1 t2).store
          rid).map DbRecord.status = some ResponseStatus.ERROR) := by
  constructor
  · intro rid a wa ga store t1 t2 e hr ha htr
    rw [queryHandler_audio_err rid a none wa ga store t1 t2 e hr ha htr]
    simp [saveErrorResponse, setRecord]
  · intro rid t wa ga store t1 t2 e hr ht hg
    rw [queryHandler_text_run rid t wa ga store t1 t2 hr ht]
    simp [geminiStep, hg, saveErrorResponse, setRecord]

/-- C10 witness: a transcription failure and a generation failure at concrete inputs. -/
theorem c10_witness :
    (queryHandler Method.POST (some ⟨some (str "abc"), none, some (str "QQ==")⟩)
        (Except.error ⟨[], str "boom"⟩) (Except.ok (str "g")) emptyStore 0 1).resp.success =
      some false ∧
    (queryHandler Method.POST (some ⟨some (str "abc"), some (str "hi"), none⟩)
        (Except.ok (str "t")) (Except.error ⟨[], str "boom"⟩) emptyStore 0 1).resp.success =
      some true := by
  constructor
  · exact (c10_success_flag_differs_by_failure_kind.1 (str "abc") (str "QQ==")
      (Except.error ⟨[], str "boom"⟩) (Except.ok (str "g")) emptyStore 0 1
      (str "Transcription failed: boom") (by decide) (by decide) rfl).1
  · exact (c10_success_flag_differs_by_failure_kind.2 (str "abc") (str "hi")
      (Except.ok (str "t")) (Except.error ⟨[], str "boom"⟩) emptyStore 0 1
      (str "AI processing failed: boom") (by decide) (by decide) rfl).1

end MCU

namespace MCU

/-! ### Characterisation of lastIndexOf -/

theorem lastIndexOf_ge_neg_one (s : Str) (c : Char) : -1 ≤ lastIndexOf s c := by
  induction s with
  | nil => simp [lastIndexOf]
  | cons x xs ih =>
    simp only [lastIndexOf]
    split
    · omega
    · split <;> omega

theorem lastIndexOf_lt_length (s : Str) (c : Char) : lastIndexOf s c < (s.length : Int) := by
  induction s with
  | nil => simp [lastIndexOf]
  | cons x xs ih =>
    simp only [lastIndexOf, List.length_cons]
    push_cast
    split
    · omega
    · split <;> omega

theorem lastIndexOf_neg (s : Str) (c : Char) (h : lastIndexOf s c = -1) :
    ∀ j, s.get? j ≠ some c := by
  induction s with
  | nil => intro j; simp
  | cons x xs ih =>
    intro j
    simp only [lastIndexOf] at h
    split at h
    · exact absurd h (by omega)
    · next hr =>
      split at h
      · exact absurd h (by omega)
      · next hx =>
        have hxs : lastIndexOf xs c = -1 := by
          have := lastIndexOf_ge_neg_one xs c
          omega
        match j with
        | 0 =>
          simp only [List.get?_cons_zero]
          intro hcontra
          have hxc : x = c := by injection hcontra
          rw [hxc] at hx
          simp at hx
        | j + 1 =>
          simp only [List.get?_cons_succ]
          exact ih hxs j

theorem lastIndexOf_find (s : Str) (c : Char) :
    ∀ j : Nat, lastIndexOf s c = (j : Int) →
      s.get? j = some c ∧ ∀ k : Nat, j < k → s.get? k ≠ some c := by
  induction s with
  | nil =>
    intro j h
    simp [lastIndexOf] at h
  | cons x xs ih =>
    intro j h
    simp only [lastIndexOf] at h
    split at h
    · next hr =>
      match j with
      | 0 =>
        exact absurd h (by omega)
      | j + 1 =>
        have hxs : lastIndexOf xs c = (j : Int) := by push_cast at h; omega
        obtain ⟨h1, h2⟩ := ih j hxs
        refine ⟨by simpa using h1, ?_⟩
        intro k hk
        match k with
        | 0 => omega
        | k + 1 =>
          simp only [List.get?_cons_succ]
          exact h2 k (by omega)
    · next hr =>
      split at h
      · next hx =>
        have hj : j = 0 := by omega
        subst hj
        have hxc : x = c := by simpa using hx
        refine ⟨by simp [hxc], ?_⟩
        intro k hk
        match k with
        | 0 => omega
        | k + 1 =>
          simp only [List.get?_cons_succ]
          have hxs : lastIndexOf xs c = -1 := by
            have := lastIndexOf_ge_neg_one xs c
            omega
          exact lastIndexOf_neg xs c hxs k
      · exact absurd h (by omega)

theorem lastIndexOf_lower (s : Str) (c : Char) :
    ∀ k : Nat, s.get? k = some c → (k : Int) ≤ lastIndexOf s c := by
  induction s with
  | nil => intro k h; simp at h
  | cons x xs ih =>
    intro k h
    simp only [lastIndexOf]
    match k with
    | 0 =>
      have hxc : x = c := by simpa using h
      split
      · omega
      · rw [if_pos (by simp [hxc])]
        omega
    | k + 1 =>
      have hk := ih k (by simpa using h)
      have hge := lastIndexOf_ge_neg_one xs c
      split
      · push_cast
        push_cast at hk
        omega
      · omega

end MCU

namespace MCU

/-! ### The truncation step, characterised -/

theorem isSentenceEnd_cases (ch : Char) (h : isSentenceEnd ch = true) :
    ch = '.' ∨ ch = '?' ∨ ch = '!' := by
  simpa [isSentenceEnd, or_assoc] using h

theorem truncateResponse_unfold (cleaned : Str) (hlong : MAX_RESPONSE_LENGTH < cleaned.length) :
    truncateResponse cleaned =
      (if (500 : Int) < max (lastIndexOf (cleaned.take MAX_RESPONSE_LENGTH) '.')
            (max (lastIndexOf (cleaned.take MAX_RESPONSE_LENGTH) '?')
                 (lastIndexOf (cleaned.take MAX_RESPONSE_LENGTH) '!')) then
         (cleaned.take MAX_RESPONSE_LENGTH).take
           ((max (lastIndexOf (cleaned.take MAX_RESPONSE_LENGTH) '.')
               (max (lastIndexOf (cleaned.take MAX_RESPONSE_LENGTH) '?')
                    (lastIndexOf (cleaned.take MAX_RESPONSE_LENGTH) '!')) + 1).toNat)
       else cleaned.take MAX_RESPONSE_LENGTH ++ str "...") := by
  simp only [truncateResponse]
  rw [if_pos hlong]

theorem truncateResponse_spec (cleaned : Str) (hlong : MAX_RESPONSE_LENGTH < cleaned.length) :
    (∀ j, sentenceMark (cleaned.take MAX_RESPONSE_LENGTH) j →
       (∀ k, j < k → ¬ sentenceMark (cleaned.take MAX_RESPONSE_LENGTH) k) →
       500 < j →
       truncateResponse cleaned = (cleaned.take MAX_RESPONSE_LENGTH).take (j + 1)) ∧
    ((∀ j, 500 < j → ¬ sentenceMark (cleaned.take MAX_RESPONSE_LENGTH) j) →
       truncateResponse cleaned = cleaned.take MAX_RESPONSE_LENGTH ++ str "...") := by
  have hM3 : ∀ m : Nat,
      max (lastIndexOf (cleaned.take MAX_RESPONSE_LENGTH) '.')
        (max (lastIndexOf (cleaned.take MAX_RESPONSE_LENGTH) '?')
             (lastIndexOf (cleaned.take MAX_RESPONSE_LENGTH) '!')) = (m : Int) →
      sentenceMark (cleaned.take MAX_RESPONSE_LENGTH) m := by
    intro m hm
    rcases max_choice (lastIndexOf (cleaned.take MAX_RESPONSE_LENGTH) '.')
        (max (lastIndexOf (cleaned.take MAX_RESPONSE_LENGTH) '?')
             (lastIndexOf (cleaned.take MAX_RESPONSE_LENGTH) '!')) with h1 | h1
    · have hx : lastIndexOf (cleaned.take MAX_RESPONSE_LENGTH) '.' = (m : Int) :=
        h1.symm.trans hm
      exact ⟨'.', (lastIndexOf_find _ '.' m hx).1, by decide⟩
    · rcases max_choice (lastIndexOf (cleaned.take MAX_RESPONSE_LENGTH) '?')
          (lastIndexOf (cleaned.take MAX_RESPONSE_LENGTH) '!') with h2 | h2
      · have hx : lastIndexOf (cleaned.take MAX_RESPONSE_LENGTH) '?' = (m : Int) :=
          h2.symm.trans (h1.symm.trans hm)
        exact ⟨'?', (lastIndexOf_find _ '?' m hx).1, by decide⟩
      · have hx : lastIndexOf (cleaned.take MAX_RESPONSE_LENGTH) '!' = (m : Int) :=
          h2.symm.trans (h1.symm.trans hm)
        exact ⟨'!', (lastIndexOf_find _ '!' m hx).1, by decide⟩
  have hLe : ∀ k : Nat, sentenceMark (cleaned.take MAX_RESPONSE_LENGTH) k →
      (k : Int) ≤ max (lastIndexOf (cleaned.take MAX_RESPONSE_LENGTH) '.')
        (max (lastIndexOf (cleaned.take MAX_RESPONSE_LENGTH) '?')
             (lastIndexOf (cleaned.take MAX_RESPONSE_LENGTH) '!')) := by
    intro k hk
    rcases hk with ⟨ch, hget, hend⟩
    rcases isSentenceEnd_cases ch hend with h | h | h
    · subst h
      exact le_trans (lastIndexOf_lower _ '.' k hget) (le_max_left _ _)
    · subst h
      exact le_trans (lastIndexOf_lower _ '?' k hget)
        (le_trans (le_max_left _ _) (le_max_right _ _))
    · subst h
      exact le_trans (lastIndexOf_lower _ '!' k hget)
        (le_trans (le_max_right _ _) (le_max_right _ _))
  constructor
  · intro j hmark hlast h500
    have hle : (j : Int) ≤ _ := hLe j hmark
    have h0 : (0 : Int) ≤ max (lastIndexOf (cleaned.take MAX_RESPONSE_LENGTH) '.')
        (max (lastIndexOf (cleaned.take MAX_RESPONSE_LENGTH) '?')
             (lastIndexOf (cleaned.take MAX_RESPONSE_LENGTH) '!')) := by
      have : (0 : Int) ≤ (j : Int) := by positivity
      omega
    have hMm := Int.toNat_of_nonneg h0
    have hmarkm := hM3 _ hMm.symm
    have hjm : j ≤ (max (lastIndexOf (cleaned.take MAX_RESPONSE_LENGTH) '.')
        (max (lastIndexOf (cleaned.take MAX_RESPONSE_LENGTH) '?')
             (lastIndexOf (cleaned.take MAX_RESPONSE_LENGTH) '!'))).toNat := by omega
    have hmj : (max (lastIndexOf (cleaned.take MAX_RESPONSE_LENGTH) '.')
        (max (lastIndexOf (cleaned.take MAX_RESPONSE_LENGTH) '?')
             (lastIndexOf (cleaned.take MAX_RESPONSE_LENGTH) '!'))).toNat ≤ j := by
      by_contra hcon
      push_neg at hcon
      exact (hlast _ hcon) hmarkm
    have hMj : max (lastIndexOf (cleaned.take MAX_RESPONSE_LENGTH) '.')
        (max (lastIndexOf (cleaned.take MAX_RESPONSE_LENGTH) '?')
             (lastIndexOf (cleaned.take MAX_RESPONSE_LENGTH) '!')) = (j : Int) := by
      omega
    rw [truncateResponse_unfold cleaned hlong, hMj, if_pos (by exact_mod_cast h500)]
    congr 1
  · intro hnone
    have hnotlt : ¬ (500 : Int) < max (lastIndexOf (cleaned.take MAX_RESPONSE_LENGTH) '.')
        (max (lastIndexOf (cleaned.take MAX_RESPONSE_LENGTH) '?')
             (lastIndexOf (cleaned.take MAX_RESPONSE_LENGTH) '!')) := by
      intro hlt
      have h0 : (0 : Int) ≤ max (lastIndexOf (cleaned.take MAX_RESPONSE_LENGTH) '.')
          (max (lastIndexOf (cleaned.take MAX_RESPONSE_LENGTH) '?')
               (lastIndexOf (cleaned.take MAX_RESPONSE_LENGTH) '!')) := by omega
      have hMm := Int.toNat_of_nonneg h0
      have hmarkm := hM3 _ hMm.symm
      have h500m : 500 < (max (lastIndexOf (cleaned.take MAX_RESPONSE_LENGTH) '.')
          (max (lastIndexOf (cleaned.take MAX_RESPONSE_LENGTH) '?')
               (lastIndexOf (cleaned.take MAX_RESPONSE_LENGTH) '!'))).toNat := by omega
      exact hnone _ h500m hmarkm
    rw [truncateResponse_unfold cleaned hlong, if_neg hnotlt]

end MCU

namespace MCU

/-! ### The stripping chain is the identity on strings of plain characters -/

theorem plainChar_ne (c : Char) (h : plainChar c = true) :
    c ≠ '*' ∧ c ≠ '_' ∧ c ≠ '#' ∧ c ≠ '[' ∧ c ≠ '`' ∧ isJsWhitespace c = false := by
  simp only [plainChar, Bool.and_eq_true, Bool.not_eq_true', beq_eq_false_iff_ne] at h
  exact ⟨h.1.1.1.1.1, h.1.1.1.1.2, h.1.1.1.2, h.1.1.2, h.1.2, h.2⟩

theorem removeBold_plain (s : Str) (h : ∀ c ∈ s, plainChar c = true) : removeBold s = s := by
  induction s with
  | nil => rfl
  | cons x xs ih =>
    have hx := (plainChar_ne x (h x (by simp))).1
    cases xs with
    | nil => rfl
    | cons y ys =>
      rw [removeBold, if_neg (by simp [hx])]
      rw [ih (fun c hc => h c (by simp [hc]))]

theorem removeStars_plain (s : Str) (h : ∀ c ∈ s, plainChar c = true) : removeStars s = s := by
  unfold removeStars
  rw [List.filter_eq_self]
  intro c hc
  simpa using (plainChar_ne c (h c hc)).1

theorem replaceUnderscores_plain (s : Str) (h : ∀ c ∈ s, plainChar c = true) :
    replaceUnderscores s = s := by
  unfold replaceUnderscores
  have : ∀ c ∈ s, (if c == '_' then ' ' else c) = id c := by
    intro c hc
    have := (plainChar_ne c (h c hc)).2.1
    simp [this]
  rw [List.map_congr_left this, List.map_id]

theorem removeHeadersAux_plain (s : Str) (h : ∀ c ∈ s, plainChar c = true) :
    ∀ b, removeHeadersAux b s = s := by
  induction s with
  | nil => intro b; rfl
  | cons x xs ih =>
    intro b
    have hx := plainChar_ne x (h x (by simp))
    rw [removeHeadersAux, if_neg (by simp [hx.2.2.1]), if_neg (by simp [hx.2.2.2.2.2])]
    rw [ih (fun c hc => h c (by simp [hc])) false]

theorem removeHeaders_plain (s : Str) (h : ∀ c ∈ s, plainChar c = true) :
    removeHeaders s = s := removeHeadersAux_plain s h false

theorem removeLinksF_plain (fuel : Nat) :
    ∀ s : Str, (∀ c ∈ s, plainChar c = true) → removeLinksF fuel s = s := by
  induction fuel with
  | zero => intro s _; cases s <;> rfl
  | succ fuel ih =>
    intro s h
    cases s with
    | nil => rfl
    | cons x xs =>
      have hx := (plainChar_ne x (h x (by simp))).2.2.2.1
      rw [removeLinksF, if_neg (by simp [hx])]
      rw [ih xs (fun c hc => h c (by simp [hc]))]

theorem removeLinks_plain (s : Str) (h : ∀ c ∈ s, plainChar c = true) :
    removeLinks s = s := removeLinksF_plain s.length s h

theorem removeFencesF_plain (fuel : Nat) :
    ∀ s : Str, (∀ c ∈ s, plainChar c = true) → removeFencesF fuel s = s := by
  induction fuel with
  | zero => intro s _; cases s <;> rfl
  | succ fuel ih =>
    intro s h
    cases s with
    | nil => rfl
    | cons x xs =>
      have hx := (plainChar_ne x (h x (by simp))).2.2.2.2.1
      rw [removeFencesF, if_neg (by simp [hx])]
      rw [ih xs (fun c hc => h c (by simp [hc]))]
      intro r3 heq
      subst heq
      exact absurd (h '`' (by simp)) (by decide)

theorem removeFences_plain (s : Str) (h : ∀ c ∈ s, plainChar c = true) :
    removeFences s = s := removeFencesF_plain s.length s h

theorem removeInlineCodeF_plain (fuel : Nat) :
    ∀ s : Str, (∀ c ∈ s, plainChar c = true) → removeInlineCodeF fuel s = s := by
  induction fuel with
  | zero => intro s _; cases s <;> rfl
  | succ fuel ih =>
    intro s h
    cases s with
    | nil => rfl
    | cons x xs =>
      have hx := (plainChar_ne x (h x (by simp))).2.2.2.2.1
      rw [removeInlineCodeF, if_neg (by simp [hx])]
      rw [ih xs (fun c hc => h c (by simp [hc]))]

theorem removeInlineCode_plain (s : Str) (h : ∀ c ∈ s, plainChar c = true) :
    removeInlineCode s = s := removeInlineCodeF_plain s.length s h

theorem collapseNewlinesAux_plain (s : Str) (h : ∀ c ∈ s, plainChar c = true) :
    collapseNewlinesAux 0 s = s := by
  induction s with
  | nil => rfl
  | cons x xs ih =>
    have hws := (plainChar_ne x (h x (by simp))).2.2.2.2.2
    have hx : (x == '\n') = false := by
      simp only [beq_eq_false_iff_ne]
      intro hcon
      rw [hcon] at hws
      simp [isJsWhitespace] at hws
    rw [collapseNewlinesAux, if_neg (by simp [hx])]
    simp only [nlRun, List.replicate, List.nil_append]
    rw [ih (fun c hc => h c (by simp [hc]))]

theorem collapseNewlines_plain (s : Str) (h : ∀ c ∈ s, plainChar c = true) :
    collapseNewlines s = s := collapseNewlinesAux_plain s h

theorem collapseWhitespaceAux_plain (s : Str) (h : ∀ c ∈ s, plainChar c = true) :
    ∀ b, collapseWhitespaceAux b s = s := by
  induction s with
  | nil => intro b; rfl
  | cons x xs ih =>
    intro b
    have hws := (plainChar_ne x (h x (by simp))).2.2.2.2.2
    rw [collapseWhitespaceAux, if_neg (by simp [hws])]
    rw [ih (fun c hc => h c (by simp [hc])) false]

theorem collapseWhitespace_plain (s : Str) (h : ∀ c ∈ s, plainChar c = true) :
    collapseWhitespace s = s := collapseWhitespaceAux_plain s h false

theorem dropWhile_not_ws (s : Str) (h : ∀ c ∈ s, isJsWhitespace c = false) :
    s.dropWhile isJsWhitespace = s := by
  cases s with
  | nil => rfl
  | cons x xs =>
    rw [List.dropWhile_cons, if_neg (by simp [h x (by simp)])]

theorem jsTrim_plain (s : Str) (h : ∀ c ∈ s, plainChar c = true) : jsTrim s = s := by
  have hws : ∀ c ∈ s, isJsWhitespace c = false := fun c hc => (plainChar_ne c (h c hc)).2.2.2.2.2
  unfold jsTrim
  rw [dropWhile_not_ws s hws]
  rw [dropWhile_not_ws s.reverse (fun c hc => hws c (List.mem_reverse.mp hc))]
  exact List.reverse_reverse s

theorem cleanPhase_plain (s : Str) (h : ∀ c ∈ s, plainChar c = true) : cleanPhase s = s := by
  unfold cleanPhase
  rw [removeBold_plain s h, removeStars_plain s h, replaceUnderscores_plain s h,
    removeHeaders_plain s h, removeLinks_plain s h, removeFences_plain s h,
    removeInlineCode_plain s h, collapseNewlines_plain s h, collapseWhitespace_plain s h,
    jsTrim_plain s h]

theorem plain_replicate (n : Nat) (c : Char) (hc : plainChar c = true) :
    ∀ x ∈ List.replicate n c, plainChar x = true := by
  intro x hx
  rw [List.eq_of_mem_replicate hx]
  exact hc

theorem lastIndexOf_replicate_ne (n : Nat) (a c : Char) (h : ¬ a = c) :
    lastIndexOf (List.replicate n a) c = -1 := by
  induction n with
  | zero => rfl
  | succ n ih =>
    rw [List.replicate_succ, lastIndexOf, ih]
    rw [if_neg (by omega), if_neg (by simp [h])]

end MCU

namespace MCU

theorem generateResponse_ok_of_nonempty (text raw : Str)
    (h1 : (jsTrim text).isEmpty = false) (h2 : (jsTrim raw).isEmpty = false) :
    generateResponse text (Except.ok raw) = Except.ok (cleanResponse raw) := by
  simp [generateResponse, h1, h2]

/-! ### C2 -/

/-- C2: when the cleaned response exceeds the 1000-character maximum, cleanResponse
returns the first 1000 characters cut just after the last sentence-terminating mark
of that prefix whenever that mark lies past index 500; when no mark lies past the
midpoint it returns the first 1000 characters with an ellipsis appended. -/
theorem c2_truncated_at_last_sentence_mark (text : Str)
    (hlong : MAX_RESPONSE_LENGTH < (cleanPhase text).length) :
    (∀ j, sentenceMark ((cleanPhase text).take MAX_RESPONSE_LENGTH) j →
       (∀ k, j < k → ¬ sentenceMark ((cleanPhase text).take MAX_RESPONSE_LENGTH) k) →
       500 < j →
       cleanResponse text = ((cleanPhase text).take MAX_RESPONSE_LENGTH).take (j + 1)) ∧
    ((∀ j, 500 < j → ¬ sentenceMark ((cleanPhase text).take MAX_RESPONSE_LENGTH) j) →
       cleanResponse text = (cleanPhase text).take MAX_RESPONSE_LENGTH ++ str "...") :=
  truncateResponse_spec (cleanPhase text) hlong

/-- C2 witness: a 1101-dot response is cut right after the mark at index 999. -/
theorem c2_witness :
    MAX_RESPONSE_LENGTH < (cleanPhase (List.replicate 1101 '.')).length ∧
    cleanResponse (List.replicate 1101 '.') =
      ((cleanPhase (List.replicate 1101 '.')).take MAX_RESPONSE_LENGTH).take (999 + 1) := by
  have hplain := plain_replicate 1101 '.' (by decide)
  have hclean : cleanPhase (List.replicate 1101 '.') = List.replicate 1101 '.' :=
    cleanPhase_plain _ hplain
  have hlong : MAX_RESPONSE_LENGTH < (cleanPhase (List.replicate 1101 '.')).length := by
    rw [hclean, List.length_replicate]
    norm_num [MAX_RESPONSE_LENGTH]
  have htake : (cleanPhase (List.replicate 1101 '.')).take MAX_RESPONSE_LENGTH =
      List.replicate 1000 '.' := by
    rw [hclean, List.take_replicate]
    norm_num [MAX_RESPONSE_LENGTH]
  have hmark : sentenceMark ((cleanPhase (List.replicate 1101 '.')).take MAX_RESPONSE_LENGTH)
      999 := by
    rw [htake]
    refine ⟨'.', ?_, by decide⟩
    rw [List.get?_eq_getElem?, List.getElem?_replicate, if_pos (by norm_num)]
  have hlast : ∀ k, 999 < k →
      ¬ sentenceMark ((cleanPhase (List.replicate 1101 '.')).take MAX_RESPONSE_LENGTH) k := by
    intro k hk hcon
    rcases hcon with ⟨ch, hget, _⟩
    rw [htake] at hget
    rw [List.get?_eq_getElem?, List.getElem?_replicate, if_neg (by omega)] at hget
    exact Option.noConfusion hget
  exact ⟨hlong, (c2_truncated_at_last_sentence_mark (List.replicate 1101 '.') hlong).1
    999 hmark hlast (by norm_num)⟩

/-! ### C3 -/

theorem truncateResponse_length_le (cleaned : Str) :
    (truncateResponse cleaned).length ≤ MAX_RESPONSE_LENGTH + 3 := by
  by_cases hlong : MAX_RESPONSE_LENGTH < cleaned.length
  · rw [truncateResponse_unfold cleaned hlong]
    split
    · simp only [List.length_take]
      simp only [MAX_RESPONSE_LENGTH]
      omega
    · have h3 : (str "...").length = 3 := rfl
      rw [List.length_append, List.length_take, h3]
      simp only [MAX_RESPONSE_LENGTH]
      omega
  · push_neg at hlong
    unfold truncateResponse
    rw [if_neg (by omega)]
    omega

/-- C3 counterexample: a 1001-character model output with no sentence mark is
returned by the generation adapter with 1003 characters — the 1000-character cut
plus the appended ellipsis — exceeding the 1000-character maximum. -/
theorem c3_counterexample :
    generateResponse (str "hi") (Except.ok (List.replicate 1001 'a')) =
      Except.ok (List.replicate 1000 'a' ++ str "...") ∧
    MAX_RESPONSE_LENGTH < (List.replicate 1000 'a' ++ str "...").length := by
  have hplain := plain_replicate 1001 'a' (by decide)
  have hclean : cleanPhase (List.replicate 1001 'a') = List.replicate 1001 'a' :=
    cleanPhase_plain _ hplain
  have htrim : jsTrim (List.replicate 1001 'a') = List.replicate 1001 'a' :=
    jsTrim_plain _ hplain
  constructor
  · have h2 : (jsTrim (List.replicate 1001 'a')).isEmpty = false := by
      rw [htrim, List.isEmpty_eq_false]
      intro hcon
      have hlen := congrArg List.length hcon
      rw [List.length_replicate] at hlen
      exact absurd hlen (by decide)
    rw [generateResponse_ok_of_nonempty (str "hi") _ (by decide) h2]
    unfold cleanResponse
    rw [hclean]
    have hlong : MAX_RESPONSE_LENGTH < (List.replicate 1001 'a').length := by
      rw [List.length_replicate]
      norm_num [MAX_RESPONSE_LENGTH]
    rw [truncateResponse_unfold _ hlong]
    have htake : (List.replicate 1001 'a').take MAX_RESPONSE_LENGTH =
        List.replicate 1000 'a' := by
      rw [List.take_replicate]
      norm_num [MAX_RESPONSE_LENGTH]
    rw [htake, lastIndexOf_replicate_ne 1000 'a' '.' (by decide),
      lastIndexOf_replicate_ne 1000 'a' '?' (by decide),
      lastIndexOf_replicate_ne 1000 'a' '!' (by decide)]
    rw [if_neg (by rw [max_self, max_self]; decide)]
  · have h3 : (str "...").length = 3 := rfl
    rw [List.length_append, List.length_replicate, h3]
    norm_num [MAX_RESPONSE_LENGTH]

/-- C3 (amended): every response the generation adapter returns has length at most
1003 — the 1000-character maximum is exceeded by up to the three ellipsis
characters in the hard-cut fallback. -/
theorem c3_generated_length_at_most_1003 (text : Str) (api : Except JsError Str) (out : Str)
    (h : generateResponse text api = Except.ok out) :
    out.length ≤ MAX_RESPONSE_LENGTH + 3 := by
  cases api with
  | error e =>
    unfold generateResponse at h
    split at h
    · exact absurd h (by simp)
    · exact absurd h (by simp)
  | ok raw =>
    unfold generateResponse at h
    split at h
    · exact absurd h (by simp)
    · dsimp only at h
      split at h
      · exact absurd h (by simp)
      · have hout : cleanResponse raw = out := by injection h
        rw [← hout]
        exact truncateResponse_length_le (cleanPhase raw)

/-- C3 witness: a short model output passes through unchanged and satisfies the
bound. -/
theorem c3_witness :
    generateResponse (str "hi") (Except.ok (str "hi")) = Except.ok (str "hi") ∧
    (str "hi").length ≤ MAX_RESPONSE_LENGTH + 3 := by
  have heq : generateResponse (str "hi") (Except.ok (str "hi")) = Except.ok (str "hi") := by
    rw [generateResponse_ok_of_nonempty (str "hi") (str "hi") (by decide) (by decide)]
    have hplain : ∀ c ∈ str "hi", plainChar c = true := by decide
    have hclean : cleanPhase (str "hi") = str "hi" := cleanPhase_plain _ hplain
    unfold cleanResponse
    rw [hclean]
    unfold truncateResponse
    rw [if_neg (by decide)]
  exact ⟨heq, c3_generated_length_at_most_1003 (str "hi") (Except.ok (str "hi")) (str "hi") heq⟩

end MCU
